import Mathlib

/-!
Verification of the BBL Multi Builder backend (src/main.py, src/config.py).

The embedding models the two request handlers that hold the engine logic
(`get_recommendations`, `build_multi`) together with the dataset-reading
handlers needed for the startup-barrier claims (`get_team_players`,
`get_matchups`).  Pandas dataframes become lists of records; a dataframe
cell of a percentage column becomes a `Cell` (NaN, a string such as
"45.5%", or a plain number); Python floats become `ℚ`; the module-level
dataframe variables (which are `None` until `load_data` runs) become
`Option`-typed fields of `DataStore`.  A handler outcome is `HResult`:
a normal JSON payload, a deliberately raised `HTTPException` (status,
detail), or an unhandled Python exception escaping the handler.
-/

namespace BBL

/-! ### Python string primitives

`str.replace` and `str.split` are Python builtins used by the handlers.
They are modelled by fuel-based structural recursion over the character
list so that they evaluate by kernel reduction; the fuel (the length of
the subject) is enough because every step consumes at least one
character.
-/

/-- Models Python `str.replace(sep, rep)` : replace each non-overlapping
occurrence of `sep`, scanning left to right.  (With an empty `sep` the
subject is returned unchanged; Python's empty-separator behaviour is
never exercised by this code base, whose separators are `"_vs_"`, `"%"`
and `" "`.) -/
def replaceFuel (sep rep : List Char) : Nat → List Char → List Char
  | 0, l => l
  | _ + 1, [] => []
  | fuel + 1, c :: cs =>
      if sep.isPrefixOf (c :: cs) && !sep.isEmpty then
        rep ++ replaceFuel sep rep fuel ((c :: cs).drop sep.length)
      else
        c :: replaceFuel sep rep fuel cs

/-- Python `s.replace(sep, rep)` on `String`. -/
def pyReplace (s sep rep : String) : String :=
  ⟨replaceFuel sep.data rep.data s.data.length s.data⟩

/-- Models Python `str.split(sep)` with a non-empty separator: cut the
subject at each non-overlapping occurrence of `sep`, scanning left to
right; `acc` is the current chunk reversed. -/
def splitFuel (sep : List Char) : Nat → List Char → List Char → List (List Char)
  | 0, acc, l => [acc.reverse ++ l]
  | _ + 1, acc, [] => [acc.reverse]
  | fuel + 1, acc, c :: cs =>
      if sep.isPrefixOf (c :: cs) && !sep.isEmpty then
        acc.reverse :: splitFuel sep fuel [] ((c :: cs).drop sep.length)
      else
        splitFuel sep fuel (c :: acc) cs

/-- Python `s.split(sep)` on `String`. -/
def pySplit (s sep : String) : List String :=
  (splitFuel sep.data s.data.length [] s.data).map String.mk

/-- Value of a list of decimal digit characters. -/
def digitsToNat (l : List Char) : Nat :=
  l.foldl (fun n c => 10 * n + (c.toNat - 48)) 0

/-- Models Python `float()` applied to the non-negative decimal numerals
that the percentage columns carry once the `%` sign is stripped (for
example `"45.5"`); arbitrary other inputs are out of scope for this
code base. -/
def pyFloat (s : String) : ℚ :=
  match pySplit s "." with
  | [i] => (digitsToNat i.data : ℚ)
  | [i, f] => (digitsToNat i.data : ℚ) + (digitsToNat f.data : ℚ) / (10 : ℚ) ^ f.data.length
  | _ => 0

/-! ### Dataframe cells -/

/-- One cell of a percentage column as pandas delivers it: missing
(NaN), a string such as `"45.5%"`, or a plain number. -/
inductive Cell where
  | nan : Cell
  | str : String → Cell
  | num : ℚ → Cell
deriving DecidableEq

/-- Models `pd.notna(v)`. -/
def Cell.notna : Cell → Bool
  | .nan => false
  | _ => true

/-- Models the Python comparison `v != "0.0%"`: for a string cell this
is string inequality; a numeric cell never equals a string in Python,
so the comparison is `True` there. -/
def Cell.neZeroSentinel : Cell → Bool
  | .str s => s ≠ "0.0%"
  | _ => true

/-- The guard of every market-extraction block in `get_recommendations`
(src/main.py): `pd.notna(v) and v != "0.0%"`. -/
def qualifies (c : Cell) : Bool :=
  c.notna && c.neZeroSentinel

/-- Models `float(v.replace('%', '')) if isinstance(v, str) else v`
(src/main.py, the `percentage_value` field of an emitted entry).  The
NaN case never executes in the source because the guard `pd.notna`
precedes it. -/
def Cell.value : Cell → ℚ
  | .str s => pyFloat (pyReplace s "%" "")
  | .num q => q
  | .nan => 0

/-! ### Dataset records and module state -/

/-- One row of `batters_df` (BBL_batters.csv), restricted to the columns
the modelled handlers read. -/
structure Batter where
  name : String
  team : String
  totalInnings : Int
  totalRuns : Int
  runs10 : Cell
  runs20 : Cell
  six : Cell
  ttrs : Cell
deriving DecidableEq

/-- One row of `bowlers_df` (BBL_bowlers.csv), restricted to the columns
the modelled handlers read. -/
structure Bowler where
  name : String
  team : String
  totalInnings : Int
  totalWickets : Int
  wicket1 : Cell
  wicket2 : Cell
  topWicket : Cell
deriving DecidableEq

/-- One row of `matchups_df` (Matchupsdata.csv). -/
structure MatchupRow where
  matchup : String
  playerName : String
  teamName : String
deriving DecidableEq

/-- The module-level dataframe variables of src/main.py.  Each is `None`
(`none`) until `load_data` has assigned it. -/
structure DataStore where
  batters_df : Option (List Batter)
  bowlers_df : Option (List Bowler)
  matchups_df : Option (List MatchupRow)

/-- `settings.BBL_TEAMS` (src/config.py). -/
def BBL_TEAMS : List String :=
  ["Adelaide Strikers", "Brisbane Heat", "Hobart Hurricanes",
   "Melbourne Renegades", "Melbourne Stars", "Perth Scorchers",
   "Sydney Sixers", "Sydney Thunder"]

/-- Outcome of a request handler: a normal payload, a deliberately
raised `HTTPException(status, detail)`, or an unhandled Python exception
escaping the handler (which the framework surfaces as a generic 500). -/
inductive HResult (α : Type) where
  | ok (value : α)
  | httpError (status : Nat) (detail : String)
  | pythonError (msg : String)
deriving DecidableEq

/-! ### The recommendation engine (`POST /recommendations`) -/

/-- One element of the `recommendations` list built by
`get_recommendations`; the source emits a dict with these keys (the
`percentage` raw-string key is determined by the cell and is omitted
here). -/
structure RecEntry where
  player_name : String
  team : String
  market : String
  percentage_value : ℚ
  type : String
deriving DecidableEq

/-- One market-extraction block of `get_recommendations` (src/main.py
repeats this block once per market): if the cell passes
`pd.notna(v) and v != "0.0%"`, append one entry. -/
def marketEntry (name team market ty : String) (c : Cell) : List RecEntry :=
  if qualifies c then [⟨name, team, market, c.value, ty⟩] else []

/-- The four batting-market blocks run for one batter, in source order. -/
def batterEntries (b : Batter) : List RecEntry :=
  marketEntry b.name b.team "10+ Runs" "batting" b.runs10 ++
  marketEntry b.name b.team "20+ Runs" "batting" b.runs20 ++
  marketEntry b.name b.team "To Hit a Six" "batting" b.six ++
  marketEntry b.name b.team "Top Team Run Scorer (TTRS)" "batting" b.ttrs

/-- The bowling-market blocks run for one bowler, in source order.  The
source contains blocks only for "1+ Wickets" and "2+ Wickets"; no block
reads the `Percentage.of.Top.Wicket.Taker.for.Team` column. -/
def bowlerEntries (w : Bowler) : List RecEntry :=
  marketEntry w.name w.team "1+ Wickets" "bowling" w.wicket1 ++
  marketEntry w.name w.team "2+ Wickets" "bowling" w.wicket2

/-- One iteration of `for team in match_teams`: the batters of the team
(in dataframe order) contribute first, then the bowlers. -/
def teamRecs (bs : List Batter) (ws : List Bowler) (team : String) : List RecEntry :=
  (bs.filter (fun b => b.team == team)).flatMap batterEntries ++
  (ws.filter (fun w => w.team == team)).flatMap bowlerEntries

/-- The full `recommendations` list before sorting and truncation. -/
def rawRecs (bs : List Batter) (ws : List Bowler) (teams : List String) : List RecEntry :=
  teams.flatMap (teamRecs bs ws)

/-- The ordering key of `sorted(recommendations, key=lambda x:
x['percentage_value'], reverse=True)`: `u` may come before `v` when the
percentage value of `u` is at least that of `v`. -/
def pvGE (u v : RecEntry) : Prop :=
  v.percentage_value ≤ u.percentage_value

instance : DecidableRel pvGE :=
  fun u v => inferInstanceAs (Decidable (v.percentage_value ≤ u.percentage_value))

instance : IsTotal RecEntry pvGE :=
  ⟨fun a b => le_total b.percentage_value a.percentage_value⟩

instance : IsTrans RecEntry pvGE :=
  ⟨fun _ _ _ h1 h2 => le_trans h2 h1⟩

/-- Models Python `sorted(..., key=lambda x: x['percentage_value'],
reverse=True)`.  Python's sort is stable; insertion sort with the
at-least relation `pvGE` is the stable descending sort, so it computes
the same list. -/
def sortDescPv (l : List RecEntry) : List RecEntry :=
  List.insertionSort pvGE l

/-- `match_id.replace("_vs_", " vs ").split(" vs ")` (src/main.py). -/
def parsedTeams (mid : String) : List String :=
  pySplit (pyReplace mid "_vs_" " vs ") " vs "

/-- The `match_teams` computation of `get_recommendations`: with a
truthy `match_id` that splits into exactly two pieces those pieces are
used verbatim; otherwise the list degrades to the winner alone.
`none` models an absent `match_id` key, `""` is likewise falsy. -/
def matchTeamsOf (winner : String) (matchId : Option String) : List String :=
  match matchId with
  | none => [winner]
  | some mid =>
      if mid = "" then [winner]
      else
        match parsedTeams mid with
        | [t1, t2] => [t1, t2]
        | _ => [winner]

/-- The JSON body returned by `POST /recommendations`. -/
structure RecResponse where
  winner_team : String
  match_teams : List String
  recommendations : List RecEntry
  total_available : Nat
deriving DecidableEq

/-- `get_recommendations` (src/main.py).  The winner check runs before
any dataframe access; with an unset dataframe the subscript
`batters_df['Team']` (or the bowlers one) raises a `TypeError` that
escapes the handler. -/
def getRecommendations (st : DataStore) (winner : String) (matchId : Option String) :
    HResult RecResponse :=
  if winner = "" ∨ winner ∉ BBL_TEAMS then .httpError 400 "Invalid winner team"
  else
    match st.batters_df, st.bowlers_df with
    | some bs, some ws =>
        .ok ⟨winner, matchTeamsOf winner matchId,
             (sortDescPv (rawRecs bs ws (matchTeamsOf winner matchId))).take 7,
             (rawRecs bs ws (matchTeamsOf winner matchId)).length⟩
    | _, _ => .pythonError "TypeError: NoneType object is not subscriptable"

/-! ### `GET /players/{team}` -/

/-- One element of the `batters` list of the `/players/{team}` payload. -/
structure BatterSummary where
  name : String
  type : String
  team : String
  total_innings : Int
  total_runs : Int
deriving DecidableEq

/-- One element of the `bowlers` list of the `/players/{team}` payload. -/
structure BowlerSummary where
  name : String
  type : String
  team : String
  total_innings : Int
  total_wickets : Int
deriving DecidableEq

/-- The JSON body returned by `GET /players/{team}`. -/
structure TeamPlayersResponse where
  team : String
  batters : List BatterSummary
  bowlers : List BowlerSummary
  total_players : Nat
deriving DecidableEq

/-- `get_team_players` (src/main.py).  The team check runs first; the
handler has no dataframe-loaded guard, so with an unset dataframe the
subscript raises a `TypeError` that escapes the handler. -/
def getTeamPlayers (st : DataStore) (team : String) : HResult TeamPlayersResponse :=
  if team ∉ BBL_TEAMS then .httpError 404 "Team not found"
  else
    match st.batters_df, st.bowlers_df with
    | some bs, some ws =>
        .ok ⟨team,
             (bs.filter (fun b => b.team == team)).map
               (fun b => ⟨b.name, "batter", b.team, b.totalInnings, b.totalRuns⟩),
             (ws.filter (fun w => w.team == team)).map
               (fun w => ⟨w.name, "bowler", w.team, w.totalInnings, w.totalWickets⟩),
             (bs.filter (fun b => b.team == team)).length +
               (ws.filter (fun w => w.team == team)).length⟩
    | _, _ => .pythonError "TypeError: NoneType object is not subscriptable"

/-! ### `GET /matchups` -/

/-- One element of the `matchups` list of the `/matchups` payload. -/
structure MatchupObj where
  id : String
  matchup : String
  team1 : String
  team2 : String
deriving DecidableEq

/-- Models `matchups_df['Matchup'].unique()`: the distinct values in
first-occurrence order. -/
def uniqueAux (seen : List String) : List String → List String
  | [] => []
  | x :: xs => if x ∈ seen then uniqueAux seen xs else x :: uniqueAux (x :: seen) xs

/-- `get_matchups` (src/main.py).  Unlike `/players/{team}` and
`/recommendations`, this handler checks `matchups_df is None` first and
raises a deliberate `HTTPException(500)`. -/
def getMatchups (st : DataStore) : HResult (List MatchupObj) :=
  match st.matchups_df with
  | none => .httpError 500 "Matchup data not loaded"
  | some rows =>
      .ok ((uniqueAux [] (rows.map MatchupRow.matchup)).flatMap fun m =>
        match pySplit m " vs " with
        | [t1, t2] => [⟨pyReplace m " " "_", m, t1.trim, t2.trim⟩]
        | _ => [])

/-! ### The multi-bet composer (`POST /build-multi`) -/

/-- One element of `selected_bets`: an untrusted caller-supplied dict.
Only the `percentage_value` key is read by the handler; `none` models a
dict without that key (`bet.get("percentage_value", 0)` then yields 0). -/
structure BetLeg where
  percentage_value : Option ℚ
deriving DecidableEq

/-- `bet.get("percentage_value", 0)`. -/
def legValue (b : BetLeg) : ℚ :=
  b.percentage_value.getD 0

/-- The body of the accumulation loop of `build_multi`:
`if percentage > 0: total_percentage *= (percentage / 100)`. -/
def mstep (acc : ℚ) (bet : BetLeg) : ℚ :=
  if 0 < legValue bet then acc * (legValue bet / 100) else acc

/-- `total_percentage` after the loop of `build_multi`, starting from
`1.0`. -/
def combinedProb (legs : List BetLeg) : ℚ :=
  legs.foldl mstep 1

/-- Models Python fixed two-decimal formatting `f"{q:.2f}"` for the
non-negative values this handler produces (rounding to the nearest
hundredth; every value formatted in the claims is exact at two
decimals, where all rounding conventions agree). -/
def formatPct2 (q : ℚ) : String :=
  toString ((⌊q * 100 + 1 / 2⌋).toNat / 100) ++ "." ++
    (if (⌊q * 100 + 1 / 2⌋).toNat % 100 < 10 then
       "0" ++ toString ((⌊q * 100 + 1 / 2⌋).toNat % 100)
     else
       toString ((⌊q * 100 + 1 / 2⌋).toNat % 100))

/-- The `multi_bet` dict returned (inside a one-key wrapper) by
`POST /build-multi`. -/
structure MultiBet where
  winner_team : String
  selected_bets : List BetLeg
  total_legs : Nat
  combined_percentage : String
  estimated_odds : String
deriving DecidableEq

/-- `build_multi` (src/main.py).  `""` models an absent or empty
`winner_team` (both are falsy in `if not winner_team`); an absent
`selected_bets` key defaults to `[]` in the source and is modelled by
the empty list. -/
def buildMulti (winner : String) (legs : List BetLeg) : HResult MultiBet :=
  if winner = "" then .httpError 400 "Winner team is required"
  else if legs = [] then .httpError 400 "At least one bet must be selected"
  else
    .ok ⟨winner, legs, legs.length + 1,
         formatPct2 (combinedProb legs * 100) ++ "%",
         if 0 < combinedProb legs * 100 then
           formatPct2 (100 / (combinedProb legs * 100))
         else "N/A"⟩

/-! ### Well-formed cells

The CSV convention described by the spec: a percentage cell is either
missing (NaN), the literal zero-percent sentinel string `"0.0%"`, or a
value (string or numeric) lying in `(0, 100]`. -/

/-- Well-formedness of one percentage cell under the dataset convention. -/
def Cell.wellFormed : Cell → Prop
  | .nan => True
  | .str s => s = "0.0%" ∨ (0 < (Cell.str s).value ∧ (Cell.str s).value ≤ 100)
  | .num q => 0 < q ∧ q ≤ 100

instance : DecidablePred Cell.wellFormed := fun c =>
  match c with
  | .nan => .isTrue trivial
  | .str _ => inferInstanceAs (Decidable (_ ∨ _))
  | .num _ => inferInstanceAs (Decidable (_ ∧ _))

/-- All four percentage cells of a batter row are well-formed. -/
def batterWF (b : Batter) : Prop :=
  b.runs10.wellFormed ∧ b.runs20.wellFormed ∧ b.six.wellFormed ∧ b.ttrs.wellFormed

/-- All three percentage cells of a bowler row are well-formed. -/
def bowlerWF (w : Bowler) : Prop :=
  w.wicket1.wellFormed ∧ w.wicket2.wellFormed ∧ w.topWicket.wellFormed

/-- The property claimed of every recommendations response: each
emitted entry has a strictly positive percentage value. -/
def entriesStrictlyPositive : HResult RecResponse → Prop
  | .ok resp => ∀ e ∈ resp.recommendations, 0 < e.percentage_value
  | _ => True

/-- Whether a handler outcome is a deliberately raised server error
(an `HTTPException` with a 5xx status), as a fail-fast startup barrier
would produce. -/
def isGuardedServerError {α : Type} : HResult α → Bool
  | .httpError status _ => 500 ≤ status
  | _ => false

/-! ### Shared lemmas -/

theorem ne_empty_of_mem_BBL {w : String} (h : w ∈ BBL_TEAMS) : w ≠ "" := by
  intro he
  rw [he] at h
  exact absurd h (by decide)

theorem mem_marketEntry {e : RecEntry} {n t m ty : String} {c : Cell} :
    e ∈ marketEntry n t m ty c ↔ qualifies c = true ∧ e = ⟨n, t, m, c.value, ty⟩ := by
  by_cases h : qualifies c = true <;> simp [marketEntry, h]

theorem mem_batterEntries_elim {e : RecEntry} {b : Batter} (h : e ∈ batterEntries b) :
    (qualifies b.runs10 = true ∧ e = ⟨b.name, b.team, "10+ Runs", b.runs10.value, "batting"⟩) ∨
    (qualifies b.runs20 = true ∧ e = ⟨b.name, b.team, "20+ Runs", b.runs20.value, "batting"⟩) ∨
    (qualifies b.six = true ∧ e = ⟨b.name, b.team, "To Hit a Six", b.six.value, "batting"⟩) ∨
    (qualifies b.ttrs = true ∧
      e = ⟨b.name, b.team, "Top Team Run Scorer (TTRS)", b.ttrs.value, "batting"⟩) := by
  simp only [batterEntries, List.mem_append, mem_marketEntry] at h
  tauto

theorem mem_bowlerEntries_elim {e : RecEntry} {w : Bowler} (h : e ∈ bowlerEntries w) :
    (qualifies w.wicket1 = true ∧ e = ⟨w.name, w.team, "1+ Wickets", w.wicket1.value, "bowling"⟩) ∨
    (qualifies w.wicket2 = true ∧
      e = ⟨w.name, w.team, "2+ Wickets", w.wicket2.value, "bowling"⟩) := by
  simp only [bowlerEntries, List.mem_append, mem_marketEntry] at h
  tauto

theorem mem_rawRecs_elim {e : RecEntry} {bs : List Batter} {ws : List Bowler}
    {teams : List String} (h : e ∈ rawRecs bs ws teams) :
    (∃ b ∈ bs, e ∈ batterEntries b) ∨ (∃ w ∈ ws, e ∈ bowlerEntries w) := by
  simp only [rawRecs, teamRecs, List.mem_flatMap, List.mem_append, List.mem_filter] at h
  obtain ⟨t, _, h⟩ := h
  rcases h with h | h
  · obtain ⟨b, ⟨hb, _⟩, he⟩ := h
    exact .inl ⟨b, hb, he⟩
  · obtain ⟨w, ⟨hw, _⟩, he⟩ := h
    exact .inr ⟨w, hw, he⟩

theorem batter_mem_rawRecs {e : RecEntry} {bs : List Batter} {ws : List Bowler}
    {teams : List String} {t : String} {b : Batter}
    (ht : t ∈ teams) (hb : b ∈ bs) (hteam : b.team = t) (he : e ∈ batterEntries b) :
    e ∈ rawRecs bs ws teams := by
  simp only [rawRecs, List.mem_flatMap]
  refine ⟨t, ht, ?_⟩
  simp only [teamRecs, List.mem_append, List.mem_flatMap, List.mem_filter]
  exact .inl ⟨b, ⟨hb, by simp [hteam]⟩, he⟩

theorem bowler_mem_rawRecs {e : RecEntry} {bs : List Batter} {ws : List Bowler}
    {teams : List String} {t : String} {w : Bowler}
    (ht : t ∈ teams) (hw : w ∈ ws) (hteam : w.team = t) (he : e ∈ bowlerEntries w) :
    e ∈ rawRecs bs ws teams := by
  simp only [rawRecs, List.mem_flatMap]
  refine ⟨t, ht, ?_⟩
  simp only [teamRecs, List.mem_append, List.mem_flatMap, List.mem_filter]
  exact .inr ⟨w, ⟨hw, by simp [hteam]⟩, he⟩

theorem getRecommendations_ok (bs : List Batter) (ws : List Bowler)
    (m : Option (List MatchupRow)) (w : String) (mid : Option String)
    (hw : w ∈ BBL_TEAMS) :
    getRecommendations ⟨some bs, some ws, m⟩ w mid =
      .ok ⟨w, matchTeamsOf w mid,
           (sortDescPv (rawRecs bs ws (matchTeamsOf w mid))).take 7,
           (rawRecs bs ws (matchTeamsOf w mid)).length⟩ := by
  have h : ¬(w = "" ∨ w ∉ BBL_TEAMS) := by
    push_neg
    exact ⟨ne_empty_of_mem_BBL hw, hw⟩
  unfold getRecommendations
  rw [if_neg h]

theorem sortDescPv_sorted (l : List RecEntry) : List.Sorted pvGE (sortDescPv l) :=
  List.sorted_insertionSort pvGE l

theorem sortDescPv_perm (l : List RecEntry) : (sortDescPv l).Perm l :=
  List.perm_insertionSort pvGE l

theorem filter_orderedInsert_pv (v : ℚ) (x : RecEntry) (l : List RecEntry) :
    (List.orderedInsert pvGE x l).filter (fun e => decide (e.percentage_value = v)) =
      if x.percentage_value = v then
        x :: l.filter (fun e => decide (e.percentage_value = v))
      else
        l.filter (fun e => decide (e.percentage_value = v)) := by
  induction l with
  | nil =>
      by_cases hv : x.percentage_value = v <;> simp [List.orderedInsert, hv]
  | cons b bs ih =>
      by_cases hxb : pvGE x b
      · simp only [List.orderedInsert, if_pos hxb]
        by_cases hv : x.percentage_value = v <;>
          by_cases hbv : b.percentage_value = v <;>
            simp [List.filter_cons, hv, hbv]
      · have hbx : x.percentage_value < b.percentage_value := by
          simp only [pvGE] at hxb
          exact lt_of_not_le hxb
        simp only [List.orderedInsert, if_neg hxb]
        by_cases hv : x.percentage_value = v
        · have hbv : ¬ b.percentage_value = v := by
            rw [← hv]
            exact (ne_of_gt hbx)
          simp [List.filter_cons, hbv, ih, hv]
        · by_cases hbv : b.percentage_value = v <;>
            simp [List.filter_cons, hbv, ih, hv]

theorem filter_sortDescPv (v : ℚ) (l : List RecEntry) :
    (sortDescPv l).filter (fun e => decide (e.percentage_value = v)) =
      l.filter (fun e => decide (e.percentage_value = v)) := by
  induction l with
  | nil => rfl
  | cons x xs ih =>
      show (List.orderedInsert pvGE x (sortDescPv xs)).filter _ = _
      rw [filter_orderedInsert_pv]
      by_cases hv : x.percentage_value = v <;> simp [List.filter_cons, hv, ih]

/-- The spec formulation of the combined probability: the product of
`percentageValue / 100` over exactly the legs with a strictly positive
value (spec section 4.3, step 3).  Stated as a second definition to be
compared with the source loop `combinedProb`. -/
def specCombinedProb (legs : List BetLeg) : ℚ :=
  ((legs.filter fun b => decide (0 < legValue b)).map (fun b => legValue b / 100)).prod

theorem foldl_mstep (legs : List BetLeg) (a : ℚ) :
    legs.foldl mstep a = a * specCombinedProb legs := by
  induction legs generalizing a with
  | nil => simp [specCombinedProb]
  | cons b bs ih =>
      rw [List.foldl_cons, ih]
      by_cases h : 0 < legValue b
      · simp only [specCombinedProb, List.filter_cons, h, decide_True, if_true, List.map_cons,
          List.prod_cons, mstep, if_pos h]
        ring
      · simp [specCombinedProb, List.filter_cons, h, mstep]

theorem combinedProb_eq (legs : List BetLeg) : combinedProb legs = specCombinedProb legs := by
  simpa [combinedProb] using foldl_mstep legs 1

theorem combinedProb_pos (legs : List BetLeg) : 0 < combinedProb legs := by
  rw [combinedProb_eq]
  apply List.prod_pos
  intro x hx
  simp only [specCombinedProb, List.mem_map, List.mem_filter] at hx
  obtain ⟨b, ⟨_, hb⟩, rfl⟩ := hx
  have hpos : 0 < legValue b := by simpa using hb
  positivity

theorem combinedPct_pos (legs : List BetLeg) : 0 < combinedProb legs * 100 :=
  mul_pos (combinedProb_pos legs) (by norm_num)

theorem buildMulti_ok (w : String) (legs : List BetLeg) (hw : w ≠ "") (hl : legs ≠ []) :
    buildMulti w legs =
      .ok ⟨w, legs, legs.length + 1,
           formatPct2 (combinedProb legs * 100) ++ "%",
           if 0 < combinedProb legs * 100 then
             formatPct2 (100 / (combinedProb legs * 100))
           else "N/A"⟩ := by
  simp [buildMulti, hw, hl]

theorem val_bounds_of_qualifies {c : Cell} (hwf : c.wellFormed) (hq : qualifies c = true) :
    0 < c.value ∧ c.value ≤ 100 := by
  cases c with
  | nan => simp [qualifies, Cell.notna] at hq
  | str s =>
      rcases hwf with h | h
      · simp [qualifies, Cell.notna, Cell.neZeroSentinel, h] at hq
      · exact h
  | num q => exact hwf

theorem mem_rawRecs_bounds {bs : List Batter} {ws : List Bowler} {teams : List String}
    (hbs : ∀ b ∈ bs, batterWF b) (hws : ∀ w ∈ ws, bowlerWF w) :
    ∀ e ∈ rawRecs bs ws teams, 0 < e.percentage_value ∧ e.percentage_value ≤ 100 := by
  intro e he
  rcases mem_rawRecs_elim he with ⟨b, hb, hin⟩ | ⟨w, hw, hin⟩
  · obtain ⟨h1, h2, h3, h4⟩ := hbs b hb
    rcases mem_batterEntries_elim hin with ⟨hq, rfl⟩ | ⟨hq, rfl⟩ | ⟨hq, rfl⟩ | ⟨hq, rfl⟩
    · exact val_bounds_of_qualifies h1 hq
    · exact val_bounds_of_qualifies h2 hq
    · exact val_bounds_of_qualifies h3 hq
    · exact val_bounds_of_qualifies h4 hq
  · obtain ⟨h1, h2, _⟩ := hws w hw
    rcases mem_bowlerEntries_elim hin with ⟨hq, rfl⟩ | ⟨hq, rfl⟩
    · exact val_bounds_of_qualifies h1 hq
    · exact val_bounds_of_qualifies h2 hq

/-! ### Claim C4 -/

/-- C4: for every winner and leg list accepted by `build_multi`, the
combined probability equals the product of `percentage_value / 100`
over exactly the legs whose value is strictly positive; a leg with
value ≤ 0 acts as a multiplier of 1 (it never disqualifies the bet);
and `total_legs` is the number of submitted legs plus one for the
winner selection. -/
theorem compose_combined_probability (w : String) (legs : List BetLeg)
    (hw : w ≠ "") (hl : legs ≠ []) :
    combinedProb legs = specCombinedProb legs ∧
    (∀ (leg : BetLeg) (rest : List BetLeg), legValue leg ≤ 0 →
        combinedProb (leg :: rest) = combinedProb rest) ∧
    ∃ mb, buildMulti w legs = .ok mb ∧
      mb.total_legs = legs.length + 1 ∧
      mb.combined_percentage = formatPct2 (specCombinedProb legs * 100) ++ "%" := by
  refine ⟨combinedProb_eq legs, ?_, ?_⟩
  · intro leg rest hle
    have h : ¬ 0 < legValue leg := not_lt.mpr hle
    simp [combinedProb, mstep, h]
  · refine ⟨_, buildMulti_ok w legs hw hl, rfl, ?_⟩
    show formatPct2 (combinedProb legs * 100) ++ "%" = _
    rw [combinedProb_eq]

/-- Witness for C4 at a concrete winner and leg list. -/
theorem compose_combined_probability_witness :
    combinedProb [⟨some 40⟩, ⟨some 0⟩] = specCombinedProb [⟨some 40⟩, ⟨some 0⟩] ∧
    (∀ (leg : BetLeg) (rest : List BetLeg), legValue leg ≤ 0 →
        combinedProb (leg :: rest) = combinedProb rest) ∧
    ∃ mb, buildMulti "Melbourne Stars" [⟨some 40⟩, ⟨some 0⟩] = .ok mb ∧
      mb.total_legs = [(⟨some 40⟩ : BetLeg), ⟨some 0⟩].length + 1 ∧
      mb.combined_percentage =
        formatPct2 (specCombinedProb [⟨some 40⟩, ⟨some 0⟩] * 100) ++ "%" :=
  compose_combined_probability "Melbourne Stars" [⟨some 40⟩, ⟨some 0⟩]
    (by decide) (by decide)

/-! ### Claim C5 -/

/-- C5: `build_multi` raises a 400 validation error when the winner
team is empty/absent, and when the leg list is empty; with a non-empty
winner and at least one leg neither validation error is raised and the
composition succeeds. -/
theorem compose_validation_errors (w : String) (legs : List BetLeg)
    (hw : w ≠ "") (hl : legs ≠ []) :
    (∀ l2 : List BetLeg, buildMulti "" l2 = .httpError 400 "Winner team is required") ∧
    buildMulti w [] = .httpError 400 "At least one bet must be selected" ∧
    ∃ mb, buildMulti w legs = .ok mb :=
  ⟨fun l2 => by simp [buildMulti],
   by simp [buildMulti, hw],
   ⟨_, buildMulti_ok w legs hw hl⟩⟩

/-- Witness for C5 at a concrete winner and leg list. -/
theorem compose_validation_errors_witness :
    (∀ l2 : List BetLeg, buildMulti "" l2 = .httpError 400 "Winner team is required") ∧
    buildMulti "Sydney Sixers" [] = .httpError 400 "At least one bet must be selected" ∧
    ∃ mb, buildMulti "Sydney Sixers" [⟨some 50⟩] = .ok mb :=
  compose_validation_errors "Sydney Sixers" [⟨some 50⟩] (by decide) (by decide)

/-! ### Claim C7 -/

/-- C7: composing two legs of value 50 yields combined percentage
"25.00%" with estimated odds "4.00"; composing a single zero-value leg
yields "100.00%" (the zero leg is skipped, the product stays 1) with
estimated odds "1.00". -/
theorem compose_numeric_examples (w : String) (hw : w ≠ "") :
    buildMulti w [⟨some 50⟩, ⟨some 50⟩] =
      .ok ⟨w, [⟨some 50⟩, ⟨some 50⟩], 3, "25.00%", "4.00"⟩ ∧
    buildMulti w [⟨some 0⟩] = .ok ⟨w, [⟨some 0⟩], 2, "100.00%", "1.00"⟩ := by
  have hc1 : combinedProb [⟨some 50⟩, ⟨some 50⟩] = 1 / 4 := by
    norm_num [combinedProb, mstep, legValue]
  have hc2 : combinedProb [⟨some 0⟩] = 1 := by
    norm_num [combinedProb, mstep, legValue]
  constructor
  · rw [buildMulti_ok w _ hw (by decide), hc1]
    have h1 : formatPct2 ((1 / 4 : ℚ) * 100) = "25.00" := by
      have hf : ⌊(1 / 4 : ℚ) * 100 * 100 + 1 / 2⌋ = 2500 := by norm_num
      simp only [formatPct2, hf]
      decide
    have h2 : formatPct2 (100 / ((1 / 4 : ℚ) * 100)) = "4.00" := by
      have hf : ⌊100 / ((1 / 4 : ℚ) * 100) * 100 + 1 / 2⌋ = 400 := by norm_num
      simp only [formatPct2, hf]
      decide
    rw [if_pos (by norm_num : (0 : ℚ) < 1 / 4 * 100), h1, h2]
    rfl
  · rw [buildMulti_ok w _ hw (by decide), hc2]
    have h1 : formatPct2 ((1 : ℚ) * 100) = "100.00" := by
      have hf : ⌊(1 : ℚ) * 100 * 100 + 1 / 2⌋ = 10000 := by norm_num
      simp only [formatPct2, hf]
      decide
    have h2 : formatPct2 (100 / ((1 : ℚ) * 100)) = "1.00" := by
      have hf : ⌊100 / ((1 : ℚ) * 100) * 100 + 1 / 2⌋ = 100 := by norm_num
      simp only [formatPct2, hf]
      decide
    rw [if_pos (by norm_num : (0 : ℚ) < 1 * 100), h1, h2]
    rfl

/-- Witness for C7 at a concrete winner. -/
theorem compose_numeric_examples_witness :
    buildMulti "Perth Scorchers" [⟨some 50⟩, ⟨some 50⟩] =
      .ok ⟨"Perth Scorchers", [⟨some 50⟩, ⟨some 50⟩], 3, "25.00%", "4.00"⟩ ∧
    buildMulti "Perth Scorchers" [⟨some 0⟩] =
      .ok ⟨"Perth Scorchers", [⟨some 0⟩], 2, "100.00%", "1.00"⟩ :=
  compose_numeric_examples "Perth Scorchers" (by decide)

/-! ### Claim C8 -/

/-- C8: the division `100 / combined_percentage` in `build_multi` runs
only under the guard `combined_percentage > 0` (the `else` branch
reports "N/A"), and the combined percentage is in fact always strictly
positive (a product of strictly positive factors starting from 1), so
the division branch is always the one taken and is always safe. -/
theorem estimated_odds_division_safe (w : String) (legs : List BetLeg)
    (hw : w ≠ "") (hl : legs ≠ []) :
    0 < combinedProb legs * 100 ∧
    ∃ mb, buildMulti w legs = .ok mb ∧
      mb.estimated_odds = formatPct2 (100 / (combinedProb legs * 100)) :=
  ⟨combinedPct_pos legs,
   ⟨_, buildMulti_ok w legs hw hl, if_pos (combinedPct_pos legs)⟩⟩

/-- Witness for C8 at a concrete winner and leg list. -/
theorem estimated_odds_division_safe_witness :
    0 < combinedProb [⟨some 75⟩] * 100 ∧
    ∃ mb, buildMulti "Hobart Hurricanes" [⟨some 75⟩] = .ok mb ∧
      mb.estimated_odds = formatPct2 (100 / (combinedProb [⟨some 75⟩] * 100)) :=
  estimated_odds_division_safe "Hobart Hurricanes" [⟨some 75⟩] (by decide) (by decide)

/-! ### Claim C9 -/

/-- C9: with a non-empty winner and a non-empty leg list, `build_multi`
succeeds whatever the leg contents: a leg without the
`percentage_value` key is read as 0 and skipped, and values above 100
are not rejected — in which case the combined percentage exceeds 100
and the estimated decimal odds drop below 1 (one leg of 200 yields
"200.00%" and odds "0.50"). -/
theorem compose_lenient_legs (w : String) (legs : List BetLeg)
    (hw : w ≠ "") (hl : legs ≠ []) :
    (∃ mb, buildMulti w legs = .ok mb) ∧
    (∀ (leg : BetLeg) (rest : List BetLeg), leg.percentage_value = none →
        legValue leg = 0 ∧ combinedProb (leg :: rest) = combinedProb rest) ∧
    buildMulti "X" [⟨some 200⟩] = .ok ⟨"X", [⟨some 200⟩], 2, "200.00%", "0.50"⟩ ∧
    (100 : ℚ) < combinedProb [⟨some 200⟩] * 100 ∧
    100 / (combinedProb [⟨some 200⟩] * 100) < 1 := by
  have hc : combinedProb [⟨some 200⟩] = 2 := by
    norm_num [combinedProb, mstep, legValue]
  refine ⟨⟨_, buildMulti_ok w legs hw hl⟩, ?_, ?_, ?_, ?_⟩
  · intro leg rest hn
    refine ⟨by simp [legValue, hn], ?_⟩
    have h : ¬ 0 < legValue leg := by simp [legValue, hn]
    simp [combinedProb, mstep, h]
  · rw [buildMulti_ok "X" _ (by decide) (by decide), hc]
    have h1 : formatPct2 ((2 : ℚ) * 100) = "200.00" := by
      have hf : ⌊(2 : ℚ) * 100 * 100 + 1 / 2⌋ = 20000 := by norm_num
      simp only [formatPct2, hf]
      decide
    have h2 : formatPct2 (100 / ((2 : ℚ) * 100)) = "0.50" := by
      have hf : ⌊100 / ((2 : ℚ) * 100) * 100 + 1 / 2⌋ = 50 := by norm_num
      simp only [formatPct2, hf]
      decide
    rw [if_pos (by norm_num : (0 : ℚ) < 2 * 100), h1, h2]
    rfl
  · rw [hc]
    norm_num
  · rw [hc]
    norm_num

/-- Witness for C9 at a concrete winner and leg list. -/
theorem compose_lenient_legs_witness :
    (∃ mb, buildMulti "Brisbane Heat" [⟨none⟩] = .ok mb) ∧
    (∀ (leg : BetLeg) (rest : List BetLeg), leg.percentage_value = none →
        legValue leg = 0 ∧ combinedProb (leg :: rest) = combinedProb rest) ∧
    buildMulti "X" [⟨some 200⟩] = .ok ⟨"X", [⟨some 200⟩], 2, "200.00%", "0.50"⟩ ∧
    (100 : ℚ) < combinedProb [⟨some 200⟩] * 100 ∧
    100 / (combinedProb [⟨some 200⟩] * 100) < 1 :=
  compose_lenient_legs "Brisbane Heat" [⟨none⟩] (by decide) (by decide)

/-! ### Sample rows used by concrete inputs -/

/-- A bowler whose only qualifying value sits in the 1+ Wickets column. -/
def sampleBowlerW1 : Bowler :=
  ⟨"B1", "Sydney Sixers", 10, 12, Cell.num 60, Cell.nan, Cell.nan⟩

/-- A bowler whose only qualifying value sits in the Top Wicket Taker
column (the column `get_recommendations` never reads). -/
def sampleBowlerTop : Bowler :=
  ⟨"B1", "Sydney Sixers", 10, 12, Cell.nan, Cell.nan, Cell.num 60⟩

/-- A batter whose 10+ Runs cell is numerically zero without being the
exact sentinel string "0.0%". -/
def sampleBatterZero : Batter :=
  ⟨"Zero", "Sydney Sixers", 5, 40, Cell.num 0, Cell.nan, Cell.nan, Cell.nan⟩

/-- A batter with one well-formed qualifying value. -/
def sampleBatter60 : Batter :=
  ⟨"Good", "Melbourne Stars", 10, 200, Cell.num 60, Cell.nan, Cell.nan, Cell.str "0.0%"⟩

/-! ### Claim C1 -/

/-- C1 (amended): the recommendations engine draws candidates from only
6 of the 7 catalog markets — the four batting markets plus "1+ Wickets"
and "2+ Wickets"; within those, every batter (resp. bowler) of a match
team with a qualifying cell contributes a candidate entry for the
corresponding market.  The catalog's third bowling market, Top Team
Wicket Taker, is never emitted (see the counterexample). -/
theorem recommendation_market_coverage (bs : List Batter) (ws : List Bowler)
    (teams : List String) :
    (∀ e ∈ rawRecs bs ws teams,
        e.market ∈ ["10+ Runs", "20+ Runs", "To Hit a Six",
                    "Top Team Run Scorer (TTRS)", "1+ Wickets", "2+ Wickets"]) ∧
    (∀ t ∈ teams, ∀ b ∈ bs, b.team = t →
        (qualifies b.runs10 = true →
          (⟨b.name, b.team, "10+ Runs", b.runs10.value, "batting"⟩ : RecEntry) ∈
            rawRecs bs ws teams) ∧
        (qualifies b.runs20 = true →
          (⟨b.name, b.team, "20+ Runs", b.runs20.value, "batting"⟩ : RecEntry) ∈
            rawRecs bs ws teams) ∧
        (qualifies b.six = true →
          (⟨b.name, b.team, "To Hit a Six", b.six.value, "batting"⟩ : RecEntry) ∈
            rawRecs bs ws teams) ∧
        (qualifies b.ttrs = true →
          (⟨b.name, b.team, "Top Team Run Scorer (TTRS)", b.ttrs.value, "batting"⟩ : RecEntry) ∈
            rawRecs bs ws teams)) ∧
    (∀ t ∈ teams, ∀ x ∈ ws, x.team = t →
        (qualifies x.wicket1 = true →
          (⟨x.name, x.team, "1+ Wickets", x.wicket1.value, "bowling"⟩ : RecEntry) ∈
            rawRecs bs ws teams) ∧
        (qualifies x.wicket2 = true →
          (⟨x.name, x.team, "2+ Wickets", x.wicket2.value, "bowling"⟩ : RecEntry) ∈
            rawRecs bs ws teams)) := by
  refine ⟨?_, ?_, ?_⟩
  · intro e he
    rcases mem_rawRecs_elim he with ⟨b, _, hin⟩ | ⟨x, _, hin⟩
    · rcases mem_batterEntries_elim hin with ⟨_, rfl⟩ | ⟨_, rfl⟩ | ⟨_, rfl⟩ | ⟨_, rfl⟩ <;> simp
    · rcases mem_bowlerEntries_elim hin with ⟨_, rfl⟩ | ⟨_, rfl⟩ <;> simp
  · intro t ht b hb hteam
    refine ⟨fun hq => batter_mem_rawRecs ht hb hteam ?_,
            fun hq => batter_mem_rawRecs ht hb hteam ?_,
            fun hq => batter_mem_rawRecs ht hb hteam ?_,
            fun hq => batter_mem_rawRecs ht hb hteam ?_⟩ <;> unfold batterEntries
    · exact List.mem_append_left _ (List.mem_append_left _
        (List.mem_append_left _ (mem_marketEntry.mpr ⟨hq, rfl⟩)))
    · exact List.mem_append_left _ (List.mem_append_left _
        (List.mem_append_right _ (mem_marketEntry.mpr ⟨hq, rfl⟩)))
    · exact List.mem_append_left _
        (List.mem_append_right _ (mem_marketEntry.mpr ⟨hq, rfl⟩))
    · exact List.mem_append_right _ (mem_marketEntry.mpr ⟨hq, rfl⟩)
  · intro t ht x hx hteam
    refine ⟨fun hq => bowler_mem_rawRecs ht hx hteam ?_,
            fun hq => bowler_mem_rawRecs ht hx hteam ?_⟩ <;> unfold bowlerEntries
    · exact List.mem_append_left _ (mem_marketEntry.mpr ⟨hq, rfl⟩)
    · exact List.mem_append_right _ (mem_marketEntry.mpr ⟨hq, rfl⟩)

/-- C1 counterexample: a bowler of the winning team holds a qualifying
value in the Top Wicket Taker column, yet the request emits no
candidate at all — the market is absent from the engine. -/
theorem topWicket_market_never_emitted :
    qualifies sampleBowlerTop.topWicket = true ∧
    getRecommendations ⟨some [], some [sampleBowlerTop], none⟩ "Sydney Sixers" none =
      .ok ⟨"Sydney Sixers", ["Sydney Sixers"], [], 0⟩ :=
  ⟨by decide, by decide⟩

/-- Witness for C1 at a concrete bowler and team list. -/
theorem recommendation_market_coverage_witness :
    (⟨"B1", "Sydney Sixers", "1+ Wickets", (60 : ℚ), "bowling"⟩ : RecEntry) ∈
      rawRecs [] [sampleBowlerW1] ["Sydney Sixers"] :=
  ((recommendation_market_coverage [] [sampleBowlerW1] ["Sydney Sixers"]).2.2
      "Sydney Sixers" (by decide) sampleBowlerW1 (by decide) rfl).1 (by decide)

/-! ### Claim C2 -/

/-- C2 (amended): a (player, market) pair is skipped exactly when its
cell is missing (NaN) or is the exact sentinel string "0.0%"; under the
dataset convention that every present non-sentinel value lies in
(0, 100], every entry of a successful recommendations response has a
percentage value strictly greater than 0 and at most 100.  The claim's
stronger reading — that any cell numerically equal to zero is skipped —
fails: the code compares against the sentinel string only (see the
counterexample). -/
theorem recommendation_values_in_range (bs : List Batter) (ws : List Bowler)
    (m : Option (List MatchupRow)) (w : String) (mid : Option String)
    (hw : w ∈ BBL_TEAMS) (hbs : ∀ b ∈ bs, batterWF b) (hws : ∀ x ∈ ws, bowlerWF x) :
    qualifies Cell.nan = false ∧ qualifies (Cell.str "0.0%") = false ∧
    ∃ resp, getRecommendations ⟨some bs, some ws, m⟩ w mid = .ok resp ∧
      ∀ e ∈ resp.recommendations, 0 < e.percentage_value ∧ e.percentage_value ≤ 100 := by
  refine ⟨rfl, by decide, _, getRecommendations_ok bs ws m w mid hw, ?_⟩
  intro e he
  have h2 : e ∈ sortDescPv (rawRecs bs ws (matchTeamsOf w mid)) :=
    List.take_subset _ _ he
  have h3 : e ∈ rawRecs bs ws (matchTeamsOf w mid) :=
    (sortDescPv_perm _).mem_iff.mp h2
  exact mem_rawRecs_bounds hbs hws e h3

/-- C2 counterexample: a 10+ Runs cell that is numerically zero (a
numeric 0, not the sentinel string "0.0%") passes the guard and is
emitted with percentage value 0 — the response violates strict
positivity. -/
theorem zero_value_entry_emitted :
    ¬ entriesStrictlyPositive
        (getRecommendations ⟨some [sampleBatterZero], some [], none⟩ "Sydney Sixers" none) := by
  have h : getRecommendations ⟨some [sampleBatterZero], some [], none⟩ "Sydney Sixers" none =
      .ok ⟨"Sydney Sixers", ["Sydney Sixers"],
           [⟨"Zero", "Sydney Sixers", "10+ Runs", 0, "batting"⟩], 1⟩ := by
    decide
  rw [h]
  intro hp
  exact lt_irrefl 0 (hp ⟨"Zero", "Sydney Sixers", "10+ Runs", 0, "batting"⟩
    (List.mem_singleton_self _))

/-- Witness for C2 at a concrete well-formed dataset. -/
theorem recommendation_values_in_range_witness :
    qualifies Cell.nan = false ∧ qualifies (Cell.str "0.0%") = false ∧
    ∃ resp, getRecommendations ⟨some [sampleBatter60], some [], none⟩
        "Melbourne Stars" none = .ok resp ∧
      ∀ e ∈ resp.recommendations, 0 < e.percentage_value ∧ e.percentage_value ≤ 100 :=
  recommendation_values_in_range [sampleBatter60] [] none "Melbourne Stars" none
    (by decide)
    (by intro b hb; simp only [List.mem_singleton] at hb; subst hb
        exact ⟨by norm_num [Cell.wellFormed, sampleBatter60], trivial, trivial, by
          simp [Cell.wellFormed, sampleBatter60]⟩)
    (by intro x hx; simp at hx)

/-! ### Claim C6 -/

/-- C6: every successful recommendations response is the stable
descending sort of the candidate list truncated to its first 7
elements: the returned list is sorted descending by percentage value,
ties keep their encounter order (entries with any fixed value appear in
the same order as in the candidate list, and the sorted list is a
permutation of it), the length never exceeds 7, and `total_available`
is the pre-truncation count. -/
theorem recommendations_sorted_stable_top7 (bs : List Batter) (ws : List Bowler)
    (m : Option (List MatchupRow)) (w : String) (mid : Option String)
    (hw : w ∈ BBL_TEAMS) :
    ∃ resp, getRecommendations ⟨some bs, some ws, m⟩ w mid = .ok resp ∧
      resp.recommendations = (sortDescPv (rawRecs bs ws (matchTeamsOf w mid))).take 7 ∧
      List.Sorted pvGE resp.recommendations ∧
      (sortDescPv (rawRecs bs ws (matchTeamsOf w mid))).Perm
        (rawRecs bs ws (matchTeamsOf w mid)) ∧
      (∀ v : ℚ,
        (sortDescPv (rawRecs bs ws (matchTeamsOf w mid))).filter
            (fun e => decide (e.percentage_value = v)) =
          (rawRecs bs ws (matchTeamsOf w mid)).filter
            (fun e => decide (e.percentage_value = v))) ∧
      resp.recommendations.length ≤ 7 ∧
      resp.total_available = (rawRecs bs ws (matchTeamsOf w mid)).length := by
  refine ⟨_, getRecommendations_ok bs ws m w mid hw, rfl,
    List.Pairwise.sublist (List.take_sublist 7 _) (sortDescPv_sorted _),
    sortDescPv_perm _, fun v => filter_sortDescPv v _, ?_, rfl⟩
  rw [List.length_take]
  exact min_le_left _ _

/-- Witness for C6 at a concrete dataset and winner. -/
theorem recommendations_sorted_stable_top7_witness :
    ∃ resp, getRecommendations ⟨some [sampleBatter60], some [], none⟩
        "Melbourne Stars" none = .ok resp ∧
      resp.recommendations =
        (sortDescPv (rawRecs [sampleBatter60] [] (matchTeamsOf "Melbourne Stars" none))).take 7 ∧
      List.Sorted pvGE resp.recommendations ∧
      (sortDescPv (rawRecs [sampleBatter60] [] (matchTeamsOf "Melbourne Stars" none))).Perm
        (rawRecs [sampleBatter60] [] (matchTeamsOf "Melbourne Stars" none)) ∧
      (∀ v : ℚ,
        (sortDescPv (rawRecs [sampleBatter60] [] (matchTeamsOf "Melbourne Stars" none))).filter
            (fun e => decide (e.percentage_value = v)) =
          (rawRecs [sampleBatter60] [] (matchTeamsOf "Melbourne Stars" none)).filter
            (fun e => decide (e.percentage_value = v))) ∧
      resp.recommendations.length ≤ 7 ∧
      resp.total_available =
        (rawRecs [sampleBatter60] [] (matchTeamsOf "Melbourne Stars" none)).length :=
  recommendations_sorted_stable_top7 [sampleBatter60] [] none "Melbourne Stars" none
    (by decide)

/-! ### Claim C10 -/

/-- C10: with a valid winner, a `match_id` that splits into exactly two
names makes those names the team set verbatim — there is no validation
of them against the team list, the winner need not be among them, and
names matching no player's team simply contribute no entries; only the
winner itself is checked against the team list (an unrecognised winner
is a 400 regardless of `match_id`). -/
theorem match_teams_unvalidated (bs : List Batter) (ws : List Bowler)
    (m : Option (List MatchupRow)) (w mid t1 t2 : String)
    (hw : w ∈ BBL_TEAMS) (hmid : mid ≠ "") (hsplit : parsedTeams mid = [t1, t2])
    (hb : ∀ b ∈ bs, b.team ≠ t1 ∧ b.team ≠ t2)
    (hx : ∀ x ∈ ws, x.team ≠ t1 ∧ x.team ≠ t2) :
    (∃ resp, getRecommendations ⟨some bs, some ws, m⟩ w (some mid) = .ok resp ∧
       resp.match_teams = [t1, t2] ∧ resp.recommendations = [] ∧
       resp.total_available = 0) ∧
    (∀ w2, w2 ∉ BBL_TEAMS →
       getRecommendations ⟨some bs, some ws, m⟩ w2 (some mid) =
         .httpError 400 "Invalid winner team") := by
  have hteams : matchTeamsOf w (some mid) = [t1, t2] := by
    simp [matchTeamsOf, hmid, hsplit]
  have hf1 : bs.filter (fun b => b.team == t1) = [] :=
    List.filter_eq_nil_iff.mpr (fun b hbm => by simp [(hb b hbm).1])
  have hf2 : bs.filter (fun b => b.team == t2) = [] :=
    List.filter_eq_nil_iff.mpr (fun b hbm => by simp [(hb b hbm).2])
  have hg1 : ws.filter (fun x => x.team == t1) = [] :=
    List.filter_eq_nil_iff.mpr (fun x hxm => by simp [(hx x hxm).1])
  have hg2 : ws.filter (fun x => x.team == t2) = [] :=
    List.filter_eq_nil_iff.mpr (fun x hxm => by simp [(hx x hxm).2])
  have hraw : rawRecs bs ws [t1, t2] = [] := by
    simp [rawRecs, teamRecs, hf1, hf2, hg1, hg2]
  refine ⟨⟨_, getRecommendations_ok bs ws m w (some mid) hw, ?_, ?_, ?_⟩, ?_⟩
  · exact hteams
  · show (sortDescPv (rawRecs bs ws (matchTeamsOf w (some mid)))).take 7 = []
    rw [hteams, hraw]
    rfl
  · show (rawRecs bs ws (matchTeamsOf w (some mid))).length = 0
    rw [hteams, hraw]
    rfl
  · intro w2 hw2
    unfold getRecommendations
    rw [if_pos (Or.inr hw2)]

/-- Witness for C10 at a concrete dataset, winner and match id. -/
theorem match_teams_unvalidated_witness :
    (∃ resp, getRecommendations ⟨some [sampleBatter60], some [], none⟩
        "Sydney Sixers" (some "AAA_vs_BBB") = .ok resp ∧
       resp.match_teams = ["AAA", "BBB"] ∧ resp.recommendations = [] ∧
       resp.total_available = 0) ∧
    (∀ w2, w2 ∉ BBL_TEAMS →
       getRecommendations ⟨some [sampleBatter60], some [], none⟩ w2 (some "AAA_vs_BBB") =
         .httpError 400 "Invalid winner team") :=
  match_teams_unvalidated [sampleBatter60] [] none "Sydney Sixers" "AAA_vs_BBB" "AAA" "BBB"
    (by decide) (by decide) (by decide) (by decide) (by decide)

/-! ### Claim C3 -/

/-- C3 (amended): before the dataset load only `/matchups` (and the
other explicitly guarded handlers) fails fast with a deliberate
`HTTPException(500, "Matchup data not loaded")`; `GET /players/{team}`
with a recognised team and `POST /recommendations` with a valid winner
perform no such check — they subscript the unset module variable, and
the resulting TypeError escapes the handler (the framework then
surfaces a generic 500, not a deliberate service-unavailable error). -/
theorem startup_guard_incomplete (team w : String) (mid : Option String)
    (hteam : team ∈ BBL_TEAMS) (hw : w ∈ BBL_TEAMS) :
    getMatchups ⟨none, none, none⟩ = .httpError 500 "Matchup data not loaded" ∧
    getTeamPlayers ⟨none, none, none⟩ team =
      .pythonError "TypeError: NoneType object is not subscriptable" ∧
    getRecommendations ⟨none, none, none⟩ w mid =
      .pythonError "TypeError: NoneType object is not subscriptable" := by
  refine ⟨rfl, ?_, ?_⟩
  · unfold getTeamPlayers
    rw [if_neg (not_not_intro hteam)]
  · have h : ¬(w = "" ∨ w ∉ BBL_TEAMS) := by
      push_neg
      exact ⟨ne_empty_of_mem_BBL hw, hw⟩
    unfold getRecommendations
    rw [if_neg h]

/-- C3 counterexample: before the dataset load, `GET /players/{team}`
for the recognised team "Adelaide Strikers" does not fail with a
deliberate service-unavailable-style server error (a raised
`HTTPException` with a 5xx status); the handler instead hits the unset
dataframe and dies with an unhandled TypeError. -/
theorem players_endpoint_without_guard :
    isGuardedServerError (getTeamPlayers ⟨none, none, none⟩ "Adelaide Strikers") = false := by
  decide

/-- Witness for C3 at a concrete team and winner. -/
theorem startup_guard_incomplete_witness :
    getMatchups ⟨none, none, none⟩ = .httpError 500 "Matchup data not loaded" ∧
    getTeamPlayers ⟨none, none, none⟩ "Adelaide Strikers" =
      .pythonError "TypeError: NoneType object is not subscriptable" ∧
    getRecommendations ⟨none, none, none⟩ "Sydney Sixers" none =
      .pythonError "TypeError: NoneType object is not subscriptable" :=
  startup_guard_incomplete "Adelaide Strikers" "Sydney Sixers" none (by decide) (by decide)

end BBL
